import Mathlib

/-!
Verification of the github-standup-agent core: the SQLite-backed task store
(`tools/tasks/task_store.py`), the Slack publish confirmation protocol
(`tools/slack/slack_publish.py`), and channel resolution
(`tools/slack_client.py`), shallowly embedded in Lean 4.

Timestamps are modelled as natural numbers (the source stores ISO-8601 UTC
strings whose lexicographic order agrees with time order; one unit = one
second, so `timedelta(days = d)` is `d * 86400`).  SQLite tables are lists of
rows; `uuid.uuid4().hex[:12]` id generation is modelled by passing the
generated id as an argument, with the `PRIMARY KEY` constraint of the
`tasks` table made explicit as an insertion-time check.
-/

namespace TaskStore

/-- One row of the `tasks` table (`_CREATE_TABLES_SQL`), after
`_row_to_dict` has parsed the JSON-encoded list columns. -/
structure TaskRow where
  id : String
  title : String
  status : String
  created_at : Nat
  updated_at : Nat
  completed_at : Option Nat
  github_username : Option String
  tags : List String
  related_prs : List String
  related_issues : List String
deriving Repr, DecidableEq

/-- One row of the `task_updates` table. -/
structure UpdateRow where
  id : String
  task_id : String
  note : String
  created_at : Nat
deriving Repr, DecidableEq

/-- The tasks database: the two tables of `_CREATE_TABLES_SQL`. -/
structure DB where
  tasks : List TaskRow
  task_updates : List UpdateRow
deriving Repr, DecidableEq

/-- The ids of all tasks currently in the store. -/
def DB.taskIds (db : DB) : List String :=
  db.tasks.map TaskRow.id

/-- `create_task`: INSERT a fresh row with status `in_progress`, both
timestamps `now`, and empty reference lists.  The generated
`uuid.uuid4().hex[:12]` id is passed in as `task_id`; the `id TEXT PRIMARY
KEY` constraint makes the INSERT fail (sqlite raises `IntegrityError`) when
the id is already present, modelled by the `Except.error` branch. -/
def create_task (db : DB) (task_id : String) (now : Nat)
    (username : Option String) (title : String) (tags : List String) :
    Except String (DB × TaskRow) :=
  if db.tasks.any (fun t => t.id == task_id) then
    Except.error "UNIQUE constraint failed: tasks.id"
  else
    let row : TaskRow :=
      { id := task_id, title := title, status := "in_progress",
        created_at := now, updated_at := now, completed_at := none,
        github_username := username, tags := tags,
        related_prs := [], related_issues := [] }
    Except.ok ({ db with tasks := db.tasks ++ [row] }, row)

/-- `update_task_status`: the UPDATE sets `status`, `updated_at = now` and
`completed_at = COALESCE(?, completed_at)` where the bound parameter is
`now` when `status == "completed"` and NULL otherwise; then the row is
re-read, `None` being returned when the id is unknown. -/
def update_task_status (db : DB) (task_id : String) (status : String)
    (now : Nat) : DB × Option TaskRow :=
  let completedParam : Option Nat := if status = "completed" then some now else none
  let tasks := db.tasks.map (fun t =>
    if t.id = task_id then
      { t with status := status, updated_at := now,
               completed_at :=
                 match completedParam with
                 | some v => some v
                 | none => t.completed_at }
    else t)
  let db2 : DB := { db with tasks := tasks }
  (db2, db2.tasks.find? (fun t => t.id == task_id))

/-- `add_task_update`: INSERT a note row (its `REFERENCES tasks(id)`
constraint, enforced by `PRAGMA foreign_keys = ON`, fails when the task is
missing) and bump the owning task's `updated_at`. -/
def add_task_update (db : DB) (update_id : String) (task_id : String)
    (note : String) (now : Nat) : Except String (DB × UpdateRow) :=
  if db.tasks.any (fun t => t.id == task_id) then
    let urow : UpdateRow := { id := update_id, task_id := task_id, note := note, created_at := now }
    let tasks := db.tasks.map (fun t =>
      if t.id = task_id then { t with updated_at := now } else t)
    Except.ok ({ tasks := tasks, task_updates := db.task_updates ++ [urow] }, urow)
  else
    Except.error "FOREIGN KEY constraint failed"

/-- Comparison used by `ORDER BY created_at ASC` on `task_updates`. -/
def updateLE (a b : UpdateRow) : Prop := a.created_at ≤ b.created_at

instance : DecidableRel updateLE := fun a b => Nat.decLe a.created_at b.created_at

instance : IsTotal UpdateRow updateLE := ⟨fun a b => Nat.le_total a.created_at b.created_at⟩

instance : IsTrans UpdateRow updateLE := ⟨fun _ _ _ h h2 => Nat.le_trans h h2⟩

/-- Comparison used by `ORDER BY updated_at DESC` on `tasks`. -/
def taskGE (a b : TaskRow) : Prop := b.updated_at ≤ a.updated_at

instance : DecidableRel taskGE := fun a b => Nat.decLe b.updated_at a.updated_at

instance : IsTotal TaskRow taskGE := ⟨fun a b => (Nat.le_total b.updated_at a.updated_at)⟩

instance : IsTrans TaskRow taskGE := ⟨fun _ _ _ h h2 => Nat.le_trans h2 h⟩

/-- `SELECT * FROM task_updates WHERE task_id = ? ORDER BY created_at ASC`. -/
def updatesFor (db : DB) (task_id : String) : List UpdateRow :=
  List.insertionSort updateLE (db.task_updates.filter (fun u => u.task_id == task_id))

/-- `get_task`: the task row (or `None`) with its updates ascending. -/
def get_task (db : DB) (task_id : String) : Option (TaskRow × List UpdateRow) :=
  match db.tasks.find? (fun t => t.id == task_id) with
  | none => none
  | some row => some (row, updatesFor db task_id)

/-- The WHERE clause of `get_tasks_for_standup`:
`(updated_at >= ? OR status = 'in_progress') AND github_username = ?`,
the username conjunct being present only when a username is given. -/
def standupCond (since : Nat) (username : Option String) (t : TaskRow) : Bool :=
  (decide (since ≤ t.updated_at) || decide (t.status = "in_progress")) &&
    (match username with
     | none => true
     | some u => decide (t.github_username = some u))

/-- The window start `datetime.now(UTC) - timedelta(days=days_back)`. -/
def standupSince (now : Nat) (days_back : Nat) : Nat := now - days_back * 86400

/-- `get_tasks_for_standup`: tasks updated within the window OR still
`in_progress` (for the given owner), ordered by `updated_at DESC`, each
paired with its updates ordered by `created_at ASC`. -/
def get_tasks_for_standup (db : DB) (username : Option String)
    (now : Nat) (days_back : Nat) : List (TaskRow × List UpdateRow) :=
  let since := standupSince now days_back
  let rows := db.tasks.filter (standupCond since username)
  (List.insertionSort taskGE rows).map (fun t => (t, updatesFor db t.id))

/-- Which JSON-list column `_add_to_json_list` targets. -/
inductive RefKind where
  | pr
  | issue
deriving Repr, DecidableEq

/-- Read the targeted column. -/
def getRefs (kind : RefKind) (t : TaskRow) : List String :=
  match kind with
  | .pr => t.related_prs
  | .issue => t.related_issues

/-- Write the targeted column. -/
def setRefs (kind : RefKind) (t : TaskRow) (l : List String) : TaskRow :=
  match kind with
  | .pr => { t with related_prs := l }
  | .issue => { t with related_issues := l }

/-- `_add_to_json_list`: SELECT the column of the addressed task (returning
`False` when the id is unknown), append `value` unless already present, and
UPDATE the column together with `updated_at`. -/
def add_to_json_list (db : DB) (task_id : String) (kind : RefKind)
    (value : String) (now : Nat) : DB × Bool :=
  match db.tasks.find? (fun t => t.id == task_id) with
  | none => (db, false)
  | some row =>
    let current := getRefs kind row
    let current2 := if value ∈ current then current else current ++ [value]
    let tasks := db.tasks.map (fun t =>
      if t.id = task_id then setRefs kind { t with updated_at := now } current2 else t)
    ({ db with tasks := tasks }, true)

/-- `link_task_to_pr`. -/
def link_task_to_pr (db : DB) (task_id : String) (pr_ref : String) (now : Nat) : DB × Bool :=
  add_to_json_list db task_id .pr pr_ref now

/-- `link_task_to_issue`. -/
def link_task_to_issue (db : DB) (task_id : String) (issue_ref : String) (now : Nat) : DB × Bool :=
  add_to_json_list db task_id .issue issue_ref now

/-- `clear_all_tasks`: delete everything, returning the task count. -/
def clear_all_tasks (db : DB) : DB × Nat :=
  ({ tasks := [], task_updates := [] }, db.tasks.length)

/-- One queued `create_task` call: the generated id plus the arguments. -/
structure CreateReq where
  task_id : String
  now : Nat
  username : Option String
  title : String
  tags : List String

/-- Run a finite sequence of `create_task` calls, collecting the ids of the
tasks returned by the calls that succeed (a call whose generated id collides
raises `IntegrityError` and returns no task). -/
def runCreates (db : DB) : List CreateReq → DB × List String
  | [] => (db, [])
  | r :: rs =>
    match create_task db r.task_id r.now r.username r.title r.tags with
    | .error _ => runCreates db rs
    | .ok (db2, row) =>
      let rest := runCreates db2 rs
      (rest.1, row.id :: rest.2)

end TaskStore

namespace Publish

/-- The session fields of `StandupContext` read or written by the publish
protocol.  `slack_token` stands for `config.get_slack_token()` and
`slack_channel` for `config.slack_channel`; the remaining fields are the
per-run mutable state threaded through the tools
(`ctx.context.…` in `slack_publish.py`). -/
structure StandupContext where
  slack_token : Option String
  slack_channel : Option String
  current_standup : Option String
  github_username : Option String
  slack_thread_ts : Option String
  slack_channel_id : Option String
  slack_publish_confirmed : Bool
  slack_standup_to_publish : Option String
deriving Repr, DecidableEq

/-- Python truthiness of an optional string: `None` and `""` are falsy. -/
def truthy : Option String → Bool
  | none => false
  | some s => decide (s ≠ "")

/-- Python `a or b` on optional strings. -/
def pyOr (a b : Option String) : Option String :=
  if truthy a then a else b

/-- Which `return` statement of `publish_standup_to_slack` produced the
result, carrying the returned string. -/
inductive PublishOutcome where
  | notConfigured (msg : String)
  | noChannel (msg : String)
  | noContent (msg : String)
  | noThread (msg : String)
  | preview (msg : String)
  | posted (msg : String)
  | apiError (msg : String)
deriving Repr, DecidableEq

/-- The preview returned by the unconfirmed branch: `preview_lines`
joined with newlines, the content excerpt truncated at 500 characters. -/
def previewMessage (channel thread_ts content : String) : String :=
  String.intercalate "\n"
    [ "**Ready to publish to Slack:**\n",
      "Channel: #" ++ channel,
      "Thread: " ++ thread_ts,
      "\n**Content preview:**\n",
      content.take 500 ++ (if 500 < content.length then "..." else ""),
      "\n\n**To confirm, say \x27yes, publish to slack\x27 or \x27confirm publish\x27**" ]

/-- The result of one `publish_standup_to_slack` call: the returned
string (tagged by which return it was), the session context after the
call, and the list of contents passed to `post_to_thread` (one entry per
invocation of the underlying chat post call, recorded even when the
transport then fails). -/
structure PublishResult where
  outcome : PublishOutcome
  ctx : StandupContext
  postCalls : List String
deriving Repr, DecidableEq

/-- `publish_standup_to_slack`.  The two external effects inside the
`try` block are modelled as arguments: `resolveChannel` is the outcome of
`resolve_channel_id` (consulted only when no channel id is cached) and
`postResult` the outcome of the `chat_postMessage` transport; a
`SlackClientError` from either is caught and rendered as the
`"Error publishing to Slack: …"` return. -/
def publish_standup_to_slack (ctx : StandupContext)
    (standup_text : Option String) (confirmed : Bool)
    (resolveChannel : Except String String)
    (postResult : Except String Unit) : PublishResult :=
  if ¬ truthy ctx.slack_token then
    { outcome := .notConfigured
        "Slack integration not configured. Set STANDUP_SLACK_BOT_TOKEN to enable.",
      ctx := ctx, postCalls := [] }
  else if ¬ truthy ctx.slack_channel then
    { outcome := .noChannel "Slack channel not configured. Set slack_channel in config.",
      ctx := ctx, postCalls := [] }
  else
    let content := pyOr standup_text ctx.current_standup
    if ¬ truthy content then
      { outcome := .noContent "No standup to publish. Generate one first.",
        ctx := ctx, postCalls := [] }
    else if ¬ truthy ctx.slack_thread_ts then
      { outcome := .noThread
          ("No standup thread found to reply to. " ++
           "Make sure there\x27s a recent standup thread in the channel, " ++
           "or run get_team_slack_standups first to find it."),
        ctx := ctx, postCalls := [] }
    else if !confirmed && !ctx.slack_publish_confirmed then
      { outcome := .preview
          (previewMessage (ctx.slack_channel.getD "") (ctx.slack_thread_ts.getD "")
            (content.getD "")),
        ctx := { ctx with slack_standup_to_publish := content },
        postCalls := [] }
    else
      let content2 := pyOr ctx.slack_standup_to_publish content
      match (if truthy ctx.slack_channel_id then
               Except.ok (ctx.slack_channel_id.getD "")
             else resolveChannel : Except String String) with
      | .error e =>
        { outcome := .apiError ("Error publishing to Slack: " ++ e), ctx := ctx, postCalls := [] }
      | .ok cid =>
        let ctx1 := { ctx with slack_channel_id := some cid }
        match postResult with
        | .error e =>
          { outcome := .apiError ("Error publishing to Slack: " ++ e), ctx := ctx1,
            postCalls := [content2.getD ""] }
        | .ok _ =>
          { outcome := .posted
              ("Posted standup to Slack in #" ++ ctx.slack_channel.getD "" ++
               " (thread: " ++ ctx.slack_thread_ts.getD "" ++ ")"),
            ctx := { ctx1 with slack_publish_confirmed := false,
                               slack_standup_to_publish := none },
            postCalls := [content2.getD ""] }

/-- `confirm_slack_publish`: record the confirmation in the session. -/
def confirm_slack_publish (ctx : StandupContext) : String × StandupContext :=
  ("Confirmation received. You can now publish to Slack.",
   { ctx with slack_publish_confirmed := true })

end Publish

namespace SlackClient

/-- `channel_name.startswith(("C", "G"))`: since both prefixes are single
characters, this is a test on the first character. -/
def startsWithCG (s : String) : Bool :=
  match s.data with
  | [] => false
  | c :: _ => c == 'C' || c == 'G'

/-- `resolve_channel_id` over the flattened, page-ordered channel listing
(`conversations_list` pagination), each channel a `(name, id)` pair.
Inputs starting with `C` or `G` are treated as already-resolved ids and
returned unchanged; otherwise every leading `#` is stripped
(`str.lstrip`) and the first channel of that name wins, a missing name
raising `SlackClientError`. -/
def resolve_channel_id (channels : List (String × String))
    (channel_name : String) : Except String String :=
  if startsWithCG channel_name then
    Except.ok channel_name
  else
    let name := String.mk (channel_name.data.dropWhile (fun c => c == '#'))
    match channels.find? (fun c => c.1 == name) with
    | some c => Except.ok c.2
    | none => Except.error ("Channel \x27" ++ name ++ "\x27 not found")

/-- The by-name search of the else branch, named for the specification. -/
def lookupChannelByName (channels : List (String × String)) (name : String) :
    Except String String :=
  match channels.find? (fun c => c.1 == name) with
  | some c => Except.ok c.2
  | none => Except.error ("Channel \x27" ++ name ++ "\x27 not found")

/-- `str.lstrip("#")`. -/
def stripLeadingHash (s : String) : String :=
  String.mk (s.data.dropWhile (fun c => c == '#'))

end SlackClient

namespace TaskStore

/-- The WHERE clause of the standup query, as a proposition. -/
theorem standupCond_iff (since : Nat) (username : Option String) (t : TaskRow) :
    standupCond since username t = true ↔
      (since ≤ t.updated_at ∨ t.status = "in_progress") ∧
      (∀ u, username = some u → t.github_username = some u) := by
  cases username <;> simp [standupCond]

/-- A successful INSERT means the generated id was fresh, and adds it. -/
theorem create_task_ok_char (db : DB) (tid : String) (now : Nat) (u : Option String)
    (ti : String) (tg : List String) (db2 : DB) (row : TaskRow)
    (h : create_task db tid now u ti tg = .ok (db2, row)) :
    tid ∉ db.taskIds ∧ db2.taskIds = db.taskIds ++ [tid] ∧ row.id = tid := by
  by_cases hany : db.tasks.any (fun t => t.id == tid)
  · simp [create_task, hany] at h
  · have hnotin : tid ∉ db.taskIds := by
      intro hmem
      apply hany
      rw [List.any_eq_true]
      obtain ⟨t, ht, hid⟩ := List.mem_map.1 hmem
      exact ⟨t, ht, by simp [hid]⟩
    simp only [create_task, hany, Bool.false_eq_true, if_false, Except.ok.injEq,
      Prod.mk.injEq] at h
    obtain ⟨h4, h5⟩ := h
    refine ⟨hnotin, ?_, ?_⟩
    · rw [← h4]
      simp [DB.taskIds]
    · rw [← h5]

/-- Ids already in the store survive any sequence of creations. -/
theorem runCreates_ids_mono (reqs : List CreateReq) (db : DB) (i : String)
    (h : i ∈ db.taskIds) : i ∈ (runCreates db reqs).1.taskIds := by
  induction reqs generalizing db with
  | nil => exact h
  | cons r rs ih =>
    unfold runCreates
    cases hc : create_task db r.task_id r.now r.username r.title r.tags with
    | error e => exact ih db h
    | ok p =>
      obtain ⟨hfresh, hids, hrow⟩ := create_task_ok_char db r.task_id r.now r.username
        r.title r.tags p.1 p.2 (by rw [hc])
      exact ih p.1 (by rw [hids]; exact List.mem_append_left _ h)

/-- Reading and writing the same reference column. -/
theorem getRefs_setRefs_same (kind : RefKind) (t : TaskRow) (l : List String) :
    getRefs kind (setRefs kind t l) = l := by
  cases kind <;> rfl

/-- Writing a reference column never changes the task id. -/
theorem setRefs_id (kind : RefKind) (t : TaskRow) (l : List String) :
    (setRefs kind t l).id = t.id := by
  cases kind <;> rfl

/-- Writing one duplicate-free column keeps both columns duplicate-free. -/
theorem refsNodup_setRefs (kind : RefKind) (t0 : TaskRow) (l : List String) (now : Nat)
    (h1 : t0.related_prs.Nodup) (h2 : t0.related_issues.Nodup) (hl : l.Nodup) :
    (setRefs kind { t0 with updated_at := now } l).related_prs.Nodup ∧
    (setRefs kind { t0 with updated_at := now } l).related_issues.Nodup := by
  cases kind <;> exact ⟨by simpa [setRefs], by simpa [setRefs]⟩

/-- Either column is duplicate-free when both are. -/
theorem getRefs_nodup_of (kind : RefKind) (t : TaskRow)
    (h1 : t.related_prs.Nodup) (h2 : t.related_issues.Nodup) : (getRefs kind t).Nodup := by
  cases kind
  · exact h1
  · exact h2

/-- Unfolding `_add_to_json_list` when the task is found. -/
theorem add_found_char (db : DB) (task_id : String) (kind : RefKind) (value : String)
    (now : Nat) (row : TaskRow)
    (hfind : db.tasks.find? (fun t => t.id == task_id) = some row) :
    add_to_json_list db task_id kind value now =
      ({ db with tasks := db.tasks.map (fun t =>
          if t.id = task_id then
            setRefs kind { t with updated_at := now }
              (if value ∈ getRefs kind row then getRefs kind row
               else getRefs kind row ++ [value])
          else t) }, true) := by
  unfold add_to_json_list
  rw [hfind]

/-- Membership in the store after a successful `_add_to_json_list`. -/
theorem add_mem_char (db : DB) (task_id : String) (kind : RefKind) (value : String)
    (now : Nat) (row : TaskRow)
    (hfind : db.tasks.find? (fun t => t.id == task_id) = some row)
    (t2 : TaskRow) (ht2 : t2 ∈ (add_to_json_list db task_id kind value now).1.tasks) :
    (t2 ∈ db.tasks ∧ t2.id ≠ task_id) ∨
    (∃ t0 ∈ db.tasks, t0.id = task_id ∧
      t2 = setRefs kind { t0 with updated_at := now }
        (if value ∈ getRefs kind row then getRefs kind row
         else getRefs kind row ++ [value])) := by
  rw [add_found_char db task_id kind value now row hfind] at ht2
  obtain ⟨t0, ht0, heq⟩ := List.mem_map.1 ht2
  by_cases hid : t0.id = task_id
  · right
    exact ⟨t0, ht0, hid, by rw [← heq, if_pos hid]⟩
  · left
    rw [← heq, if_neg hid]
    exact ⟨ht0, hid⟩

/-- The task is still found after a successful `_add_to_json_list`, with the
targeted column updated. -/
theorem add_find_after (db : DB) (task_id : String) (kind : RefKind) (value : String)
    (now : Nat) (row : TaskRow)
    (hfind : db.tasks.find? (fun t => t.id == task_id) = some row) :
    ∃ row2, (add_to_json_list db task_id kind value now).1.tasks.find?
        (fun t => t.id == task_id) = some row2 ∧
      row2.id = task_id ∧
      getRefs kind row2 = (if value ∈ getRefs kind row then getRefs kind row
        else getRefs kind row ++ [value]) := by
  have hrowmem : row ∈ db.tasks := List.mem_of_find?_eq_some hfind
  have hrowid : row.id = task_id := by simpa using List.find?_some hfind
  have hsome : ((add_to_json_list db task_id kind value now).1.tasks.find?
      (fun t => t.id == task_id)).isSome := by
    rw [List.find?_isSome]
    refine ⟨setRefs kind { row with updated_at := now }
      (if value ∈ getRefs kind row then getRefs kind row
       else getRefs kind row ++ [value]), ?_, by simp [setRefs_id, hrowid]⟩
    rw [add_found_char db task_id kind value now row hfind]
    have hmem3 := List.mem_map_of_mem (fun t =>
      if t.id = task_id then
        setRefs kind { t with updated_at := now }
          (if value ∈ getRefs kind row then getRefs kind row
           else getRefs kind row ++ [value])
      else t) hrowmem
    simpa [hrowid] using hmem3
  obtain ⟨row2, hfind2⟩ := Option.isSome_iff_exists.1 hsome
  have hid2 : row2.id = task_id := by simpa using List.find?_some hfind2
  have hmem2 : row2 ∈ (add_to_json_list db task_id kind value now).1.tasks :=
    List.mem_of_find?_eq_some hfind2
  rcases add_mem_char db task_id kind value now row hfind row2 hmem2 with
    ⟨-, hne⟩ | ⟨t0, -, -, heq⟩
  · exact absurd hid2 hne
  · exact ⟨row2, hfind2, hid2, by rw [heq, getRefs_setRefs_same]⟩

end TaskStore

namespace Publish

/-- The unconfirmed call stages the content and previews. -/
theorem publish_preview_eq (ctx : StandupContext) (standup_text : Option String)
    (resolveChannel : Except String String) (postResult : Except String Unit)
    (htok : truthy ctx.slack_token = true)
    (hchan : truthy ctx.slack_channel = true)
    (hcontent : truthy (pyOr standup_text ctx.current_standup) = true)
    (hthread : truthy ctx.slack_thread_ts = true)
    (hconf : ctx.slack_publish_confirmed = false) :
    publish_standup_to_slack ctx standup_text false resolveChannel postResult =
      { outcome := .preview (previewMessage (ctx.slack_channel.getD "")
          (ctx.slack_thread_ts.getD "") ((pyOr standup_text ctx.current_standup).getD "")),
        ctx := { ctx with slack_standup_to_publish := pyOr standup_text ctx.current_standup },
        postCalls := [] } := by
  simp [publish_standup_to_slack, htok, hchan, hcontent, hthread, hconf]

/-- The confirmed call with both transports succeeding posts the
staged-or-fresh content and clears the protocol state. -/
theorem publish_posted_eq (ctx : StandupContext) (standup_text : Option String)
    (confirmed : Bool) (cid : String)
    (htok : truthy ctx.slack_token = true)
    (hchan : truthy ctx.slack_channel = true)
    (hcontent : truthy (pyOr standup_text ctx.current_standup) = true)
    (hthread : truthy ctx.slack_thread_ts = true)
    (hconf : (!confirmed && !ctx.slack_publish_confirmed) = false) :
    publish_standup_to_slack ctx standup_text confirmed (Except.ok cid) (Except.ok ()) =
      { outcome := .posted ("Posted standup to Slack in #" ++ ctx.slack_channel.getD "" ++
          " (thread: " ++ ctx.slack_thread_ts.getD "" ++ ")"),
        ctx := { ctx with
                 slack_channel_id := some (if truthy ctx.slack_channel_id then
                     ctx.slack_channel_id.getD "" else cid),
                 slack_publish_confirmed := false,
                 slack_standup_to_publish := none },
        postCalls := [(pyOr ctx.slack_standup_to_publish
            (pyOr standup_text ctx.current_standup)).getD ""] } := by
  by_cases hcache : truthy ctx.slack_channel_id <;>
    simp [publish_standup_to_slack, htok, hchan, hcontent, hthread, hconf, hcache]

/-- The confirmed call whose post transport fails surfaces the error and
leaves the protocol state untouched. -/
theorem publish_post_error_eq (ctx : StandupContext) (standup_text : Option String)
    (confirmed : Bool) (cid : String) (e : String)
    (htok : truthy ctx.slack_token = true)
    (hchan : truthy ctx.slack_channel = true)
    (hcontent : truthy (pyOr standup_text ctx.current_standup) = true)
    (hthread : truthy ctx.slack_thread_ts = true)
    (hconf : (!confirmed && !ctx.slack_publish_confirmed) = false) :
    publish_standup_to_slack ctx standup_text confirmed (Except.ok cid) (Except.error e) =
      { outcome := .apiError ("Error publishing to Slack: " ++ e),
        ctx := { ctx with
                 slack_channel_id := some (if truthy ctx.slack_channel_id then
                     ctx.slack_channel_id.getD "" else cid) },
        postCalls := [(pyOr ctx.slack_standup_to_publish
            (pyOr standup_text ctx.current_standup)).getD ""] } := by
  by_cases hcache : truthy ctx.slack_channel_id <;>
    simp [publish_standup_to_slack, htok, hchan, hcontent, hthread, hconf, hcache]

/-- A call with `confirmed=False` and no recorded confirmation never
invokes the post transport, whatever else happens. -/
theorem publish_unconfirmed_no_post (ctx : StandupContext) (standup_text : Option String)
    (resolveChannel : Except String String) (postResult : Except String Unit)
    (hconf : ctx.slack_publish_confirmed = false) :
    (publish_standup_to_slack ctx standup_text false resolveChannel postResult).postCalls
      = [] := by
  by_cases htok : truthy ctx.slack_token <;>
  by_cases hchan : truthy ctx.slack_channel <;>
  by_cases hcontent : truthy (pyOr standup_text ctx.current_standup) <;>
  by_cases hthread : truthy ctx.slack_thread_ts <;>
    simp [publish_standup_to_slack, htok, hchan, hcontent, hthread, hconf]

end Publish

open TaskStore Publish SlackClient

/-- C1 (counterexample): the claim that a repeated `update_task_status` to
`completed` leaves `completed_at` unchanged is false: a task completed at
time 1, re-completed at time 2, ends with `completed_at = 2`, because the
UPDATE binds `COALESCE(?, completed_at)` with the fresh timestamp as the
first argument. -/
theorem completed_at_overwritten_on_recomplete :
    (update_task_status
      { tasks := [{ id := "a", title := "t", status := "completed",
                    created_at := 0, updated_at := 1, completed_at := some 1,
                    github_username := none, tags := [],
                    related_prs := [], related_issues := [] }],
        task_updates := [] }
      "a" "completed" 2).1.tasks.map TaskRow.completed_at = [some 2] := by
  decide

/-- C1 (amended): `update_task_status` leaves `completed_at` unchanged for
every status other than `completed` (including on a task whose
`completed_at` is already set), and every `completed` call — including a
repeated one — overwrites `completed_at` with the current time. -/
theorem update_status_completed_at (db : DB) (task_id status : String) (now : Nat) :
    (update_task_status db task_id status now).1.tasks.map TaskRow.completed_at =
      db.tasks.map (fun t =>
        if t.id = task_id ∧ status = "completed" then some now else t.completed_at) := by
  unfold update_task_status
  simp only [List.map_map]
  refine List.map_congr_left (fun t ht => ?_)
  by_cases h1 : t.id = task_id <;> by_cases h2 : status = "completed" <;>
    simp [h1, h2, Function.comp]

/-- C2: with a resolved token, channel, content and thread, a publish call
with `confirmed=False` and no recorded session confirmation never invokes
the chat post transport; it stages the content and returns the preview. -/
theorem publish_unconfirmed_is_preview (ctx : StandupContext) (standup_text : Option String)
    (resolveChannel : Except String String) (postResult : Except String Unit)
    (htok : truthy ctx.slack_token = true)
    (hchan : truthy ctx.slack_channel = true)
    (hcontent : truthy (pyOr standup_text ctx.current_standup) = true)
    (hthread : truthy ctx.slack_thread_ts = true)
    (hconf : ctx.slack_publish_confirmed = false) :
    (publish_standup_to_slack ctx standup_text false resolveChannel postResult).postCalls
      = [] ∧
    (publish_standup_to_slack ctx standup_text false resolveChannel postResult).outcome =
      .preview (previewMessage (ctx.slack_channel.getD "") (ctx.slack_thread_ts.getD "")
        ((pyOr standup_text ctx.current_standup).getD "")) ∧
    (publish_standup_to_slack ctx standup_text false resolveChannel postResult).ctx =
      { ctx with slack_standup_to_publish := pyOr standup_text ctx.current_standup } := by
  rw [publish_preview_eq ctx standup_text resolveChannel postResult htok hchan hcontent
    hthread hconf]
  exact ⟨rfl, rfl, rfl⟩

/-- C2 witness at a concrete session. -/
theorem publish_unconfirmed_is_preview_witness :
    (publish_standup_to_slack
        { slack_token := some "xoxb-token", slack_channel := some "general",
          current_standup := some "Did things", github_username := none,
          slack_thread_ts := some "17.0", slack_channel_id := none,
          slack_publish_confirmed := false, slack_standup_to_publish := none }
        none false (Except.ok "C1") (Except.ok ())).postCalls = [] ∧
    (publish_standup_to_slack
        { slack_token := some "xoxb-token", slack_channel := some "general",
          current_standup := some "Did things", github_username := none,
          slack_thread_ts := some "17.0", slack_channel_id := none,
          slack_publish_confirmed := false, slack_standup_to_publish := none }
        none false (Except.ok "C1") (Except.ok ())).outcome =
      .preview (previewMessage "general" "17.0" "Did things") ∧
    (publish_standup_to_slack
        { slack_token := some "xoxb-token", slack_channel := some "general",
          current_standup := some "Did things", github_username := none,
          slack_thread_ts := some "17.0", slack_channel_id := none,
          slack_publish_confirmed := false, slack_standup_to_publish := none }
        none false (Except.ok "C1") (Except.ok ())).ctx =
      { slack_token := some "xoxb-token", slack_channel := some "general",
        current_standup := some "Did things", github_username := none,
        slack_thread_ts := some "17.0", slack_channel_id := none,
        slack_publish_confirmed := false,
        slack_standup_to_publish := some "Did things" } :=
  publish_unconfirmed_is_preview
    { slack_token := some "xoxb-token", slack_channel := some "general",
      current_standup := some "Did things", github_username := none,
      slack_thread_ts := some "17.0", slack_channel_id := none,
      slack_publish_confirmed := false, slack_standup_to_publish := none }
    none (Except.ok "C1") (Except.ok ()) (by decide) (by decide) (by decide) (by decide) rfl

/-- C3: content staged during an unconfirmed preview is what a later
confirmed publish posts, even when both the session's current standup and
the freshly passed text have changed in between. -/
theorem staged_content_fidelity (ctx : StandupContext)
    (text1 text2 newCur : Option String)
    (res1 : Except String String) (post1 : Except String Unit) (cid : String)
    (htok : truthy ctx.slack_token = true)
    (hchan : truthy ctx.slack_channel = true)
    (hc1 : truthy (pyOr text1 ctx.current_standup) = true)
    (hthread : truthy ctx.slack_thread_ts = true)
    (hconf : ctx.slack_publish_confirmed = false)
    (hc2 : truthy (pyOr text2 newCur) = true) :
    (publish_standup_to_slack
        { (confirm_slack_publish
            (publish_standup_to_slack ctx text1 false res1 post1).ctx).2 with
          current_standup := newCur }
        text2 false (Except.ok cid) (Except.ok ())).postCalls =
      [(pyOr text1 ctx.current_standup).getD ""] ∧
    (∃ m, (publish_standup_to_slack
        { (confirm_slack_publish
            (publish_standup_to_slack ctx text1 false res1 post1).ctx).2 with
          current_standup := newCur }
        text2 false (Except.ok cid) (Except.ok ())).outcome = .posted m) := by
  rw [publish_preview_eq ctx text1 res1 post1 htok hchan hc1 hthread hconf]
  simp only [confirm_slack_publish]
  rw [publish_posted_eq _ text2 false cid (by simpa using htok) (by simpa using hchan)
      (by simpa using hc2) (by simpa using hthread) (by simp)]
  refine ⟨?_, ⟨_, rfl⟩⟩
  simp only [pyOr] at hc1 ⊢
  simp [hc1]

/-- C3 witness: "Did things" is staged, the session content then changes to
"changed" and the confirmed call passes "other", yet "Did things" is
posted. -/
theorem staged_content_fidelity_witness :
    (publish_standup_to_slack
        { (confirm_slack_publish
            (publish_standup_to_slack
              { slack_token := some "xoxb-token", slack_channel := some "general",
                current_standup := some "Did things", github_username := none,
                slack_thread_ts := some "17.0", slack_channel_id := none,
                slack_publish_confirmed := false, slack_standup_to_publish := none }
              none false (Except.error "unused") (Except.ok ())).ctx).2 with
          current_standup := some "changed" }
        (some "other") false (Except.ok "C1") (Except.ok ())).postCalls = ["Did things"] ∧
    (∃ m, (publish_standup_to_slack
        { (confirm_slack_publish
            (publish_standup_to_slack
              { slack_token := some "xoxb-token", slack_channel := some "general",
                current_standup := some "Did things", github_username := none,
                slack_thread_ts := some "17.0", slack_channel_id := none,
                slack_publish_confirmed := false, slack_standup_to_publish := none }
              none false (Except.error "unused") (Except.ok ())).ctx).2 with
          current_standup := some "changed" }
        (some "other") false (Except.ok "C1") (Except.ok ())).outcome = .posted m) :=
  staged_content_fidelity
    { slack_token := some "xoxb-token", slack_channel := some "general",
      current_standup := some "Did things", github_username := none,
      slack_thread_ts := some "17.0", slack_channel_id := none,
      slack_publish_confirmed := false, slack_standup_to_publish := none }
    none (some "other") (some "changed") (Except.error "unused") (Except.ok ()) "C1"
    (by decide) (by decide) (by decide) (by decide) rfl (by decide)

/-- C4: a successful publish clears both the confirmation flag and the
staged content, so the next publish call without a fresh confirmation
makes no post call at all and (when content is available) returns a
preview: one confirmation authorizes exactly one publish. -/
theorem one_confirmation_one_publish (ctx : StandupContext)
    (text1 : Option String) (confirmed1 : Bool) (cid : String)
    (htok : truthy ctx.slack_token = true)
    (hchan : truthy ctx.slack_channel = true)
    (hc1 : truthy (pyOr text1 ctx.current_standup) = true)
    (hthread : truthy ctx.slack_thread_ts = true)
    (hconf : (!confirmed1 && !ctx.slack_publish_confirmed) = false) :
    (∃ m, (publish_standup_to_slack ctx text1 confirmed1 (Except.ok cid)
        (Except.ok ())).outcome = .posted m) ∧
    (publish_standup_to_slack ctx text1 confirmed1 (Except.ok cid)
        (Except.ok ())).ctx.slack_publish_confirmed = false ∧
    (publish_standup_to_slack ctx text1 confirmed1 (Except.ok cid)
        (Except.ok ())).ctx.slack_standup_to_publish = none ∧
    (∀ text2 res2 post2,
      (publish_standup_to_slack (publish_standup_to_slack ctx text1 confirmed1 (Except.ok cid)
          (Except.ok ())).ctx text2 false res2 post2).postCalls = [] ∧
      (truthy (pyOr text2 ctx.current_standup) = true →
        ∃ m, (publish_standup_to_slack (publish_standup_to_slack ctx text1 confirmed1
            (Except.ok cid) (Except.ok ())).ctx text2 false res2 post2).outcome =
          .preview m)) := by
  rw [publish_posted_eq ctx text1 confirmed1 cid htok hchan hc1 hthread hconf]
  refine ⟨⟨_, rfl⟩, rfl, rfl, fun text2 res2 post2 => ⟨?_, fun hc2 => ?_⟩⟩
  · exact publish_unconfirmed_no_post _ text2 res2 post2 rfl
  · rw [publish_preview_eq _ text2 res2 post2 (by simpa using htok) (by simpa using hchan)
      (by simpa using hc2) (by simpa using hthread) rfl]
    exact ⟨_, rfl⟩

/-- C4 witness at a concrete session: the confirmed publish posts, and the
follow-up call previews without posting. -/
theorem one_confirmation_one_publish_witness :
    (∃ m, (publish_standup_to_slack
        { slack_token := some "xoxb-token", slack_channel := some "general",
          current_standup := some "Did things", github_username := none,
          slack_thread_ts := some "17.0", slack_channel_id := none,
          slack_publish_confirmed := false, slack_standup_to_publish := none }
        none true (Except.ok "C1") (Except.ok ())).outcome = .posted m) ∧
    (publish_standup_to_slack
        { slack_token := some "xoxb-token", slack_channel := some "general",
          current_standup := some "Did things", github_username := none,
          slack_thread_ts := some "17.0", slack_channel_id := none,
          slack_publish_confirmed := false, slack_standup_to_publish := none }
        none true (Except.ok "C1") (Except.ok ())).ctx.slack_publish_confirmed = false ∧
    (publish_standup_to_slack
        { slack_token := some "xoxb-token", slack_channel := some "general",
          current_standup := some "Did things", github_username := none,
          slack_thread_ts := some "17.0", slack_channel_id := none,
          slack_publish_confirmed := false, slack_standup_to_publish := none }
        none true (Except.ok "C1") (Except.ok ())).ctx.slack_standup_to_publish = none ∧
    (publish_standup_to_slack (publish_standup_to_slack
        { slack_token := some "xoxb-token", slack_channel := some "general",
          current_standup := some "Did things", github_username := none,
          slack_thread_ts := some "17.0", slack_channel_id := none,
          slack_publish_confirmed := false, slack_standup_to_publish := none }
        none true (Except.ok "C1") (Except.ok ())).ctx
        none false (Except.ok "C1") (Except.ok ())).postCalls = [] ∧
    (∃ m, (publish_standup_to_slack (publish_standup_to_slack
        { slack_token := some "xoxb-token", slack_channel := some "general",
          current_standup := some "Did things", github_username := none,
          slack_thread_ts := some "17.0", slack_channel_id := none,
          slack_publish_confirmed := false, slack_standup_to_publish := none }
        none true (Except.ok "C1") (Except.ok ())).ctx
        none false (Except.ok "C1") (Except.ok ())).outcome = .preview m) := by
  have h := one_confirmation_one_publish
    { slack_token := some "xoxb-token", slack_channel := some "general",
      current_standup := some "Did things", github_username := none,
      slack_thread_ts := some "17.0", slack_channel_id := none,
      slack_publish_confirmed := false, slack_standup_to_publish := none }
    none true "C1" (by decide) (by decide) (by decide) (by decide) (by decide)
  exact ⟨h.1, h.2.1, h.2.2.1, (h.2.2.2 none (Except.ok "C1") (Except.ok ())).1,
    (h.2.2.2 none (Except.ok "C1") (Except.ok ())).2 (by decide)⟩

/-- C5: `get_tasks_for_standup` returns exactly the owner's tasks whose
`updated_at` lies within the window or whose status is `in_progress` — a
stale `in_progress` task is still returned, a stale `completed` task is
not — and every returned task carries its updates ordered ascending by
creation time (a permutation of its rows in `task_updates`). -/
theorem get_tasks_for_standup_spec (db : DB) (username : Option String)
    (now days_back : Nat) (t : TaskRow) (us : List UpdateRow) :
    ((t, us) ∈ get_tasks_for_standup db username now days_back ↔
      (t ∈ db.tasks ∧
       (standupSince now days_back ≤ t.updated_at ∨ t.status = "in_progress") ∧
       (∀ u, username = some u → t.github_username = some u) ∧
       us = updatesFor db t.id)) ∧
    ((t, us) ∈ get_tasks_for_standup db username now days_back →
      us.Sorted updateLE ∧
      us.Perm (db.task_updates.filter (fun u => u.task_id == t.id))) := by
  have hmem : ∀ a : TaskRow,
      a ∈ List.insertionSort taskGE
          (db.tasks.filter (standupCond (standupSince now days_back) username)) ↔
        a ∈ db.tasks.filter (standupCond (standupSince now days_back) username) :=
    fun a => (List.perm_insertionSort taskGE _).mem_iff
  have hchar : (t, us) ∈ get_tasks_for_standup db username now days_back ↔
      (t ∈ db.tasks ∧
       (standupSince now days_back ≤ t.updated_at ∨ t.status = "in_progress") ∧
       (∀ u, username = some u → t.github_username = some u) ∧
       us = updatesFor db t.id) := by
    simp only [get_tasks_for_standup, List.mem_map]
    constructor
    · rintro ⟨a, ha, heq⟩
      rw [Prod.mk.injEq] at heq
      obtain ⟨rfl, rfl⟩ := heq
      rw [hmem, List.mem_filter] at ha
      exact ⟨ha.1, ((standupCond_iff _ _ _).1 ha.2).1, ((standupCond_iff _ _ _).1 ha.2).2,
        rfl⟩
    · rintro ⟨ht, hcond, howner, rfl⟩
      exact ⟨t, (hmem t).2 (List.mem_filter.2 ⟨ht, (standupCond_iff _ _ _).2
        ⟨hcond, howner⟩⟩), rfl⟩
  refine ⟨hchar, fun h => ?_⟩
  obtain ⟨-, -, -, rfl⟩ := hchar.1 h
  exact ⟨List.sorted_insertionSort updateLE _, List.perm_insertionSort updateLE _⟩

/-- C5 witness: a stale `in_progress` task (updated at time 0, window
starting at 13600) is returned with its updates in ascending order, while
a stale `completed` task is characterized out. -/
theorem get_tasks_for_standup_spec_witness :
    (({ id := "a", title := "old active", status := "in_progress",
        created_at := 0, updated_at := 0, completed_at := none,
        github_username := some "alice", tags := [],
        related_prs := [], related_issues := [] },
      updatesFor
        { tasks :=
            [{ id := "a", title := "old active", status := "in_progress",
               created_at := 0, updated_at := 0, completed_at := none,
               github_username := some "alice", tags := [],
               related_prs := [], related_issues := [] },
             { id := "b", title := "old done", status := "completed",
               created_at := 0, updated_at := 5, completed_at := some 5,
               github_username := some "alice", tags := [],
               related_prs := [], related_issues := [] }],
          task_updates :=
            [{ id := "u2", task_id := "a", note := "second", created_at := 9 },
             { id := "u1", task_id := "a", note := "first", created_at := 3 }] }
        "a") ∈
      get_tasks_for_standup
        { tasks :=
            [{ id := "a", title := "old active", status := "in_progress",
               created_at := 0, updated_at := 0, completed_at := none,
               github_username := some "alice", tags := [],
               related_prs := [], related_issues := [] },
             { id := "b", title := "old done", status := "completed",
               created_at := 0, updated_at := 5, completed_at := some 5,
               github_username := some "alice", tags := [],
               related_prs := [], related_issues := [] }],
          task_updates :=
            [{ id := "u2", task_id := "a", note := "second", created_at := 9 },
             { id := "u1", task_id := "a", note := "first", created_at := 3 }] }
        (some "alice") 100000 1) ∧
    (updatesFor
        { tasks :=
            [{ id := "a", title := "old active", status := "in_progress",
               created_at := 0, updated_at := 0, completed_at := none,
               github_username := some "alice", tags := [],
               related_prs := [], related_issues := [] },
             { id := "b", title := "old done", status := "completed",
               created_at := 0, updated_at := 5, completed_at := some 5,
               github_username := some "alice", tags := [],
               related_prs := [], related_issues := [] }],
          task_updates :=
            [{ id := "u2", task_id := "a", note := "second", created_at := 9 },
             { id := "u1", task_id := "a", note := "first", created_at := 3 }] }
        "a").Sorted updateLE := by
  have h := get_tasks_for_standup_spec
    { tasks :=
        [{ id := "a", title := "old active", status := "in_progress",
           created_at := 0, updated_at := 0, completed_at := none,
           github_username := some "alice", tags := [],
           related_prs := [], related_issues := [] },
         { id := "b", title := "old done", status := "completed",
           created_at := 0, updated_at := 5, completed_at := some 5,
           github_username := some "alice", tags := [],
           related_prs := [], related_issues := [] }],
      task_updates :=
        [{ id := "u2", task_id := "a", note := "second", created_at := 9 },
         { id := "u1", task_id := "a", note := "first", created_at := 3 }] }
    (some "alice") 100000 1
    { id := "a", title := "old active", status := "in_progress",
      created_at := 0, updated_at := 0, completed_at := none,
      github_username := some "alice", tags := [],
      related_prs := [], related_issues := [] }
    (updatesFor
      { tasks :=
          [{ id := "a", title := "old active", status := "in_progress",
             created_at := 0, updated_at := 0, completed_at := none,
             github_username := some "alice", tags := [],
             related_prs := [], related_issues := [] },
           { id := "b", title := "old done", status := "completed",
             created_at := 0, updated_at := 5, completed_at := some 5,
             github_username := some "alice", tags := [],
             related_prs := [], related_issues := [] }],
        task_updates :=
          [{ id := "u2", task_id := "a", note := "second", created_at := 9 },
           { id := "u1", task_id := "a", note := "first", created_at := 3 }] }
      "a")
  have hin := h.1.2 (by refine ⟨by decide, ?_, ?_, rfl⟩ <;> decide)
  exact ⟨hin, (h.2 hin).1⟩

/-- C6 (counterexample): the confirmation is not scoped to the pending
publish.  With a session-state confirmation and staged content
"old standup", a publish whose post transport fails leaves
`slack_publish_confirmed = True`; a later publish call for the different
content "a different, unrelated standup", with `confirmed=False` and no
fresh confirmation, does not return a preview — it posts (the staged
"old standup"), so the confirmation step is skipped. -/
theorem confirmation_not_scoped_counterexample :
    (publish_standup_to_slack
      { slack_token := some "xoxb-token", slack_channel := some "general",
        current_standup := some "old standup", github_username := none,
        slack_thread_ts := some "111.222", slack_channel_id := none,
        slack_publish_confirmed := true, slack_standup_to_publish := some "old standup" }
      none false (Except.ok "C01") (Except.error "timeout")).outcome =
      .apiError "Error publishing to Slack: timeout" ∧
    (publish_standup_to_slack
      (publish_standup_to_slack
        { slack_token := some "xoxb-token", slack_channel := some "general",
          current_standup := some "old standup", github_username := none,
          slack_thread_ts := some "111.222", slack_channel_id := none,
          slack_publish_confirmed := true, slack_standup_to_publish := some "old standup" }
        none false (Except.ok "C01") (Except.error "timeout")).ctx
      (some "a different, unrelated standup") false (Except.ok "C01")
      (Except.ok ())).postCalls = ["old standup"] ∧
    (publish_standup_to_slack
      (publish_standup_to_slack
        { slack_token := some "xoxb-token", slack_channel := some "general",
          current_standup := some "old standup", github_username := none,
          slack_thread_ts := some "111.222", slack_channel_id := none,
          slack_publish_confirmed := true, slack_standup_to_publish := some "old standup" }
        none false (Except.ok "C01") (Except.error "timeout")).ctx
      (some "a different, unrelated standup") false (Except.ok "C01")
      (Except.ok ())).outcome =
      .posted "Posted standup to Slack in #general (thread: 111.222)" := by
  exact ⟨rfl, rfl, rfl⟩

/-- C6 (amended): when the post transport fails, the publish call returns
the error message and leaves both the confirmation state and the staged
content exactly as they were, so the pending publish can be retried
without re-confirming; but because a session-state confirmation survives
the failure, a later publish call for different content without a fresh
confirmation is not re-gated — it proceeds and posts the previously
staged content. -/
theorem transport_failure_preserves_state (ctx : StandupContext)
    (text : Option String) (confirmed : Bool) (cid : String) (e : String)
    (htok : truthy ctx.slack_token = true)
    (hchan : truthy ctx.slack_channel = true)
    (hc : truthy (pyOr text ctx.current_standup) = true)
    (hthread : truthy ctx.slack_thread_ts = true)
    (hconf : (!confirmed && !ctx.slack_publish_confirmed) = false) :
    (publish_standup_to_slack ctx text confirmed (Except.ok cid) (Except.error e)).outcome =
      .apiError ("Error publishing to Slack: " ++ e) ∧
    (publish_standup_to_slack ctx text confirmed (Except.ok cid)
        (Except.error e)).ctx.slack_publish_confirmed = ctx.slack_publish_confirmed ∧
    (publish_standup_to_slack ctx text confirmed (Except.ok cid)
        (Except.error e)).ctx.slack_standup_to_publish = ctx.slack_standup_to_publish ∧
    (ctx.slack_publish_confirmed = true →
      truthy ctx.slack_standup_to_publish = true →
      ∀ text2 cid2, truthy (pyOr text2 ctx.current_standup) = true →
        (publish_standup_to_slack (publish_standup_to_slack ctx text confirmed (Except.ok cid)
            (Except.error e)).ctx text2 false (Except.ok cid2) (Except.ok ())).postCalls =
          [ctx.slack_standup_to_publish.getD ""] ∧
        ∃ m, (publish_standup_to_slack (publish_standup_to_slack ctx text confirmed
            (Except.ok cid) (Except.error e)).ctx text2 false (Except.ok cid2)
            (Except.ok ())).outcome = .posted m) := by
  rw [publish_post_error_eq ctx text confirmed cid e htok hchan hc hthread hconf]
  refine ⟨rfl, rfl, rfl, fun hst hstg text2 cid2 hc2 => ?_⟩
  rw [publish_posted_eq _ text2 false cid2 (by simpa using htok) (by simpa using hchan)
      (by simpa using hc2) (by simpa using hthread) (by simp [hst])]
  refine ⟨?_, ⟨_, rfl⟩⟩
  simp only [pyOr]
  simp [hstg]

/-- C6 witness at a concrete session with a session-state confirmation and
staged content. -/
theorem transport_failure_preserves_state_witness :
    (publish_standup_to_slack
        { slack_token := some "xoxb-token", slack_channel := some "general",
          current_standup := some "old standup", github_username := none,
          slack_thread_ts := some "111.222", slack_channel_id := none,
          slack_publish_confirmed := true, slack_standup_to_publish := some "old standup" }
        none false (Except.ok "C01") (Except.error "timeout")).outcome =
      .apiError ("Error publishing to Slack: " ++ "timeout") ∧
    (publish_standup_to_slack
        { slack_token := some "xoxb-token", slack_channel := some "general",
          current_standup := some "old standup", github_username := none,
          slack_thread_ts := some "111.222", slack_channel_id := none,
          slack_publish_confirmed := true, slack_standup_to_publish := some "old standup" }
        none false (Except.ok "C01") (Except.error "timeout")).ctx.slack_publish_confirmed
      = true ∧
    (publish_standup_to_slack
        { slack_token := some "xoxb-token", slack_channel := some "general",
          current_standup := some "old standup", github_username := none,
          slack_thread_ts := some "111.222", slack_channel_id := none,
          slack_publish_confirmed := true, slack_standup_to_publish := some "old standup" }
        none false (Except.ok "C01")
        (Except.error "timeout")).ctx.slack_standup_to_publish = some "old standup" ∧
    (publish_standup_to_slack (publish_standup_to_slack
        { slack_token := some "xoxb-token", slack_channel := some "general",
          current_standup := some "old standup", github_username := none,
          slack_thread_ts := some "111.222", slack_channel_id := none,
          slack_publish_confirmed := true, slack_standup_to_publish := some "old standup" }
        none false (Except.ok "C01") (Except.error "timeout")).ctx
        none false (Except.ok "C02") (Except.ok ())).postCalls = ["old standup"] := by
  have h := transport_failure_preserves_state
    { slack_token := some "xoxb-token", slack_channel := some "general",
      current_standup := some "old standup", github_username := none,
      slack_thread_ts := some "111.222", slack_channel_id := none,
      slack_publish_confirmed := true, slack_standup_to_publish := some "old standup" }
    none false "C01" "timeout" (by decide) (by decide) (by decide) (by decide) (by decide)
  exact ⟨h.1, h.2.1, h.2.2.1, (h.2.2.2 rfl (by decide) none "C02" (by decide)).1⟩

/-- C7: starting from a store whose task ids are pairwise distinct, any
finite sequence of `create_task` calls returns pairwise-distinct ids, the
store's ids stay pairwise distinct, and no returned id reuses an id that
was already in the store — the `PRIMARY KEY` constraint rejects a
colliding generated id instead of returning it. -/
theorem create_task_ids_unique (reqs : List CreateReq) (db : DB)
    (h : db.taskIds.Nodup) :
    (runCreates db reqs).2.Nodup ∧
    (runCreates db reqs).1.taskIds.Nodup ∧
    (∀ i ∈ (runCreates db reqs).2, i ∉ db.taskIds) := by
  induction reqs generalizing db with
  | nil => exact ⟨List.nodup_nil, h, by simp [runCreates]⟩
  | cons r rs ih =>
    unfold runCreates
    cases hc : create_task db r.task_id r.now r.username r.title r.tags with
    | error e => exact ih db h
    | ok p =>
      obtain ⟨db2, row⟩ := p
      dsimp only
      obtain ⟨hfresh, hids, hrow⟩ := create_task_ok_char db r.task_id r.now r.username
        r.title r.tags db2 row (by rw [hc])
      have h2 : db2.taskIds.Nodup := by
        rw [hids, ← List.concat_eq_append]
        exact List.Nodup.concat hfresh h
      obtain ⟨ihn, ihfin, ihfresh⟩ := ih db2 h2
      have hmemtid : r.task_id ∈ db2.taskIds := by
        rw [hids]
        exact List.mem_append_right _ (List.mem_singleton.2 rfl)
      refine ⟨?_, ihfin, ?_⟩
      · rw [hrow]
        refine List.nodup_cons.2 ⟨fun hmem => ihfresh _ hmem hmemtid, ihn⟩
      · intro i hi
        rw [hrow] at hi
        rcases List.mem_cons.1 hi with rfl | hi2
        · exact hfresh
        · intro hdb
          exact ihfresh _ hi2 (by rw [hids]; exact List.mem_append_left _ hdb)

/-- C7 witness: two creations from the empty store return distinct ids. -/
theorem create_task_ids_unique_witness :
    (runCreates { tasks := [], task_updates := [] }
      [{ task_id := "1f3a9c2b4d5e", now := 10, username := some "alice",
         title := "Fix auth bug", tags := [] },
       { task_id := "9b8c7d6e5f4a", now := 11, username := some "alice",
         title := "Refactor API", tags := ["backend"] }]).2.Nodup ∧
    (runCreates { tasks := [], task_updates := [] }
      [{ task_id := "1f3a9c2b4d5e", now := 10, username := some "alice",
         title := "Fix auth bug", tags := [] },
       { task_id := "9b8c7d6e5f4a", now := 11, username := some "alice",
         title := "Refactor API", tags := ["backend"] }]).1.taskIds.Nodup ∧
    (∀ i ∈ (runCreates { tasks := [], task_updates := [] }
      [{ task_id := "1f3a9c2b4d5e", now := 10, username := some "alice",
         title := "Fix auth bug", tags := [] },
       { task_id := "9b8c7d6e5f4a", now := 11, username := some "alice",
         title := "Refactor API", tags := ["backend"] }]).2,
      i ∉ DB.taskIds { tasks := [], task_updates := [] }) :=
  create_task_ids_unique
    [{ task_id := "1f3a9c2b4d5e", now := 10, username := some "alice",
       title := "Fix auth bug", tags := [] },
     { task_id := "9b8c7d6e5f4a", now := 11, username := some "alice",
       title := "Refactor API", tags := ["backend"] }]
    { tasks := [], task_updates := [] } (by decide)

/-- C8: on a store whose reference lists are duplicate-free, linking the
same `(task_id, kind, ref)` twice succeeds both times, leaves every
reference list duplicate-free, and leaves exactly one occurrence of the
reference in the targeted column of the addressed task. -/
theorem link_reference_dedup (db : DB) (task_id value : String) (kind : RefKind)
    (now1 now2 : Nat)
    (hex : (db.tasks.find? (fun t => t.id == task_id)).isSome)
    (hnd : ∀ t ∈ db.tasks, t.related_prs.Nodup ∧ t.related_issues.Nodup) :
    (add_to_json_list db task_id kind value now1).2 = true ∧
    (add_to_json_list (add_to_json_list db task_id kind value now1).1
        task_id kind value now2).2 = true ∧
    (∀ t ∈ (add_to_json_list db task_id kind value now1).1.tasks,
       t.related_prs.Nodup ∧ t.related_issues.Nodup) ∧
    (∀ t ∈ (add_to_json_list (add_to_json_list db task_id kind value now1).1
        task_id kind value now2).1.tasks,
       (t.related_prs.Nodup ∧ t.related_issues.Nodup) ∧
       (t.id = task_id → (getRefs kind t).count value = 1)) := by
  obtain ⟨row, hfind⟩ := Option.isSome_iff_exists.1 hex
  have hrowmem : row ∈ db.tasks := List.mem_of_find?_eq_some hfind
  have hcurnd : (getRefs kind row).Nodup :=
    getRefs_nodup_of kind row (hnd row hrowmem).1 (hnd row hrowmem).2
  have hnl :
      (if value ∈ getRefs kind row then getRefs kind row
       else getRefs kind row ++ [value]).Nodup ∧
      value ∈ (if value ∈ getRefs kind row then getRefs kind row
       else getRefs kind row ++ [value]) ∧
      (if value ∈ getRefs kind row then getRefs kind row
       else getRefs kind row ++ [value]).count value = 1 := by
    by_cases hv : value ∈ getRefs kind row
    · exact ⟨by rw [if_pos hv]; exact hcurnd, by rw [if_pos hv]; exact hv,
        by rw [if_pos hv]; exact List.count_eq_one_of_mem hcurnd hv⟩
    · refine ⟨?_, ?_, ?_⟩
      · rw [if_neg hv, ← List.concat_eq_append]
        exact List.Nodup.concat hv hcurnd
      · rw [if_neg hv]
        exact List.mem_append_right _ (List.mem_singleton.2 rfl)
      · rw [if_neg hv, List.count_append]
        rw [List.count_eq_zero.2 hv]
        simp
  have h1true : (add_to_json_list db task_id kind value now1).2 = true := by
    rw [add_found_char db task_id kind value now1 row hfind]
  have hinv1 : ∀ t ∈ (add_to_json_list db task_id kind value now1).1.tasks,
      t.related_prs.Nodup ∧ t.related_issues.Nodup := by
    intro t ht
    rcases add_mem_char db task_id kind value now1 row hfind t ht with
      ⟨hmem, -⟩ | ⟨t0, ht0, -, rfl⟩
    · exact hnd t hmem
    · exact refsNodup_setRefs kind t0 _ now1 (hnd t0 ht0).1 (hnd t0 ht0).2 hnl.1
  obtain ⟨row2, hfind2, hid2, hrefs2⟩ := add_find_after db task_id kind value now1 row hfind
  have h2true : (add_to_json_list (add_to_json_list db task_id kind value now1).1
      task_id kind value now2).2 = true := by
    rw [add_found_char _ task_id kind value now2 row2 hfind2]
  have hnl2 : (if value ∈ getRefs kind row2 then getRefs kind row2
      else getRefs kind row2 ++ [value]) =
      (if value ∈ getRefs kind row then getRefs kind row
       else getRefs kind row ++ [value]) := by
    rw [hrefs2, if_pos hnl.2.1]
  refine ⟨h1true, h2true, hinv1, ?_⟩
  intro t ht
  rcases add_mem_char _ task_id kind value now2 row2 hfind2 t ht with
    ⟨hmem, hne⟩ | ⟨t0, ht0, -, rfl⟩
  · exact ⟨hinv1 t hmem, fun hidt => absurd hidt hne⟩
  · constructor
    · exact refsNodup_setRefs kind t0 _ now2 (hinv1 t0 ht0).1 (hinv1 t0 ht0).2
        (by rw [hnl2]; exact hnl.1)
    · intro hidt
      rw [getRefs_setRefs_same, hnl2]
      exact hnl.2.2

/-- C8 witness: linking the same PR reference twice to a concrete task. -/
theorem link_reference_dedup_witness :
    (add_to_json_list
      { tasks := [{ id := "a", title := "PR work", status := "in_progress",
                    created_at := 0, updated_at := 0, completed_at := none,
                    github_username := some "alice", tags := [],
                    related_prs := [], related_issues := [] }],
        task_updates := [] } "a" RefKind.pr "org/repo#1" 1).2 = true ∧
    (add_to_json_list (add_to_json_list
      { tasks := [{ id := "a", title := "PR work", status := "in_progress",
                    created_at := 0, updated_at := 0, completed_at := none,
                    github_username := some "alice", tags := [],
                    related_prs := [], related_issues := [] }],
        task_updates := [] } "a" RefKind.pr "org/repo#1" 1).1
      "a" RefKind.pr "org/repo#1" 2).2 = true ∧
    (∀ t ∈ (add_to_json_list
      { tasks := [{ id := "a", title := "PR work", status := "in_progress",
                    created_at := 0, updated_at := 0, completed_at := none,
                    github_username := some "alice", tags := [],
                    related_prs := [], related_issues := [] }],
        task_updates := [] } "a" RefKind.pr "org/repo#1" 1).1.tasks,
      t.related_prs.Nodup ∧ t.related_issues.Nodup) ∧
    (∀ t ∈ (add_to_json_list (add_to_json_list
      { tasks := [{ id := "a", title := "PR work", status := "in_progress",
                    created_at := 0, updated_at := 0, completed_at := none,
                    github_username := some "alice", tags := [],
                    related_prs := [], related_issues := [] }],
        task_updates := [] } "a" RefKind.pr "org/repo#1" 1).1
      "a" RefKind.pr "org/repo#1" 2).1.tasks,
      (t.related_prs.Nodup ∧ t.related_issues.Nodup) ∧
      (t.id = "a" → (getRefs RefKind.pr t).count "org/repo#1" = 1)) :=
  link_reference_dedup
    { tasks := [{ id := "a", title := "PR work", status := "in_progress",
                  created_at := 0, updated_at := 0, completed_at := none,
                  github_username := some "alice", tags := [],
                  related_prs := [], related_issues := [] }],
      task_updates := [] } "a" "org/repo#1" RefKind.pr 1 2 (by decide) (by decide)

/-- C9: for a task id not in the store, `update_task_status` returns the
not-found signal `None` and `_add_to_json_list` returns `False`, and
neither changes the store in any way — both are total functions here, so
neither raises. -/
theorem missing_task_ops_noop (db : DB) (task_id status ref : String) (now : Nat)
    (kind : RefKind)
    (h : ∀ t ∈ db.tasks, t.id ≠ task_id) :
    update_task_status db task_id status now = (db, none) ∧
    add_to_json_list db task_id kind ref now = (db, false) := by
  have hfind : db.tasks.find? (fun t => t.id == task_id) = none := by
    rw [List.find?_eq_none]
    intro t ht
    simp [h t ht]
  have hmap : db.tasks.map (fun t =>
      if t.id = task_id then
        { t with status := status, updated_at := now,
                 completed_at :=
                   match (if status = "completed" then some now
                          else none : Option Nat) with
                   | some v => some v
                   | none => t.completed_at }
      else t) = db.tasks := by
    rw [List.map_congr_left (g := fun t => t)]
    · simp
    · intro t ht
      simp [h t ht]
  constructor
  · unfold update_task_status
    simp only [hmap]
    simp [hfind]
  · unfold add_to_json_list
    rw [hfind]

/-- C9 witness: the missing id "missing" against a store holding only
task "b". -/
theorem missing_task_ops_noop_witness :
    update_task_status
      { tasks := [{ id := "b", title := "t", status := "in_progress",
                    created_at := 0, updated_at := 0, completed_at := none,
                    github_username := none, tags := [],
                    related_prs := [], related_issues := [] }],
        task_updates := [] } "missing" "completed" 7 =
      ({ tasks := [{ id := "b", title := "t", status := "in_progress",
                     created_at := 0, updated_at := 0, completed_at := none,
                     github_username := none, tags := [],
                     related_prs := [], related_issues := [] }],
         task_updates := [] }, none) ∧
    add_to_json_list
      { tasks := [{ id := "b", title := "t", status := "in_progress",
                    created_at := 0, updated_at := 0, completed_at := none,
                    github_username := none, tags := [],
                    related_prs := [], related_issues := [] }],
        task_updates := [] } "missing" RefKind.pr "org/repo#1" 7 =
      ({ tasks := [{ id := "b", title := "t", status := "in_progress",
                     created_at := 0, updated_at := 0, completed_at := none,
                     github_username := none, tags := [],
                     related_prs := [], related_issues := [] }],
         task_updates := [] }, false) :=
  missing_task_ops_noop
    { tasks := [{ id := "b", title := "t", status := "in_progress",
                  created_at := 0, updated_at := 0, completed_at := none,
                  github_username := none, tags := [],
                  related_prs := [], related_issues := [] }],
      task_updates := [] } "missing" "completed" "org/repo#1" 7 RefKind.pr (by decide)

/-- C10: `resolve_channel_id` short-circuits on any input whose first
character is `C` or `G`, returning it unchanged without consulting the
channel listing (the result is the same for every listing); only for
other inputs are the leading `#` characters stripped and the name looked
up in the listing. -/
theorem resolve_channel_id_spec (channels channels2 : List (String × String))
    (channel_name : String) :
    (startsWithCG channel_name = true →
       resolve_channel_id channels channel_name = Except.ok channel_name ∧
       resolve_channel_id channels channel_name = resolve_channel_id channels2 channel_name) ∧
    (startsWithCG channel_name = false →
       resolve_channel_id channels channel_name =
         lookupChannelByName channels (stripLeadingHash channel_name)) := by
  constructor <;> intro h <;>
    simp [resolve_channel_id, lookupChannelByName, stripLeadingHash, h]

/-- C10 witness: the name "Cool-channel" starts with `C`, so it is returned
as-is even though the listing maps it to an id; "#general" is stripped
and looked up. -/
theorem resolve_channel_id_spec_witness :
    resolve_channel_id [("Cool-channel", "C777")] "Cool-channel" =
      Except.ok "Cool-channel" ∧
    resolve_channel_id [("general", "C1")] "#general" =
      lookupChannelByName [("general", "C1")] (stripLeadingHash "#general") :=
  ⟨((resolve_channel_id_spec [("Cool-channel", "C777")] [] "Cool-channel").1 (by decide)).1,
   (resolve_channel_id_spec [("general", "C1")] [] "#general").2 (by decide)⟩
